import Mathlib

/-!
Verification of the invoice generator's composition and computation pipeline
(`main.py`). The Python source is shallowly embedded: Python floats are
modelled as exact rationals (ℚ), Python float floor-division and modulo as
`pyFloorDiv` / `pyMod`, pydantic model construction as `Option`-returning
constructors, and the mutable append-to-contents pattern as functions that
return the list of blocks each method appends, concatenated in call order.
-/

namespace BillPDF

/-- Python `a // b` on floats: the floor of the true quotient, as a float. -/
def pyFloorDiv (a b : ℚ) : ℚ := ((⌊a / b⌋ : ℤ) : ℚ)

/-- Python `a % b` on floats: `a - b * (a // b)`. -/
def pyMod (a b : ℚ) : ℚ := a - b * pyFloorDiv a b

/-- Embeds `class FontStyle(Enum)` (main.py lines 21-25). -/
inductive FontStyle
  | base
  | bold
  | italic
  | bold_italic
deriving DecidableEq

/-- The `.value` string of each `FontStyle` member. -/
def FontStyle.value : FontStyle → String
  | .base => "base"
  | .bold => "bold"
  | .italic => "italic"
  | .bold_italic => "bold_italic"

/-- Embeds `class Alignment(Enum)` (main.py lines 44-48). -/
inductive Alignment
  | left
  | right
  | center
  | justify
deriving DecidableEq

/-- The `.value` string of each `Alignment` member. -/
def Alignment.value : Alignment → String
  | .left => "left"
  | .right => "right"
  | .center => "center"
  | .justify => "justify"

/-- Embeds the `MONTH_TO_FRENCH` dict (main.py lines 28-41); `none` models a
`KeyError` on a key outside 1..12 (unreachable from `datetime` values). -/
def MONTH_TO_FRENCH : Nat → Option String
  | 1 => some "janvier"
  | 2 => some "février"
  | 3 => some "mars"
  | 4 => some "avril"
  | 5 => some "mai"
  | 6 => some "juin"
  | 7 => some "juillet"
  | 8 => some "août"
  | 9 => some "septembre"
  | 10 => some "octobre"
  | 11 => some "novembre"
  | 12 => some "décembre"
  | _ => none

/-- Total lookup used where the Python code indexes the dict directly with a
month taken from a `date`/`datetime` value (always in 1..12). -/
def monthFrench (m : Nat) : String := (MONTH_TO_FRENCH m).getD ""

/-- Embeds `Literal["M", "F"]`, the type of `Client.gender` (main.py line 53). -/
inductive Gender
  | M
  | F
deriving DecidableEq

/-- Pydantic validation of the `gender` field: a string is accepted exactly
when it is one of the two literals; any other value raises a
`ValidationError` at construction time, modelled by `none`. -/
def parseGender (s : String) : Option Gender :=
  if s = "M" then some Gender.M
  else if s = "F" then some Gender.F
  else none

/-- Embeds `class Client(BaseModel)` (main.py lines 51-56). -/
structure Client where
  name : String
  gender : Gender
  city : String
  zip_code : String
  adress : String
deriving DecidableEq

/-- Embeds `class LawFirm(BaseModel)` (main.py lines 59-70). -/
structure LawFirm where
  principal_lawyer : String
  collaborators : List String
  zip_code : String
  city : String
  adress : String
  phone : String
  toque_adress : String
  mail : String
  website : String
  vat_number : String
  siret_number : String
deriving DecidableEq

/-- A calendar date as used by the source (`datetime.date` / `datetime`):
only the day, month and year fields are ever read. -/
structure Date where
  day : Nat
  month : Nat
  year : Nat
deriving DecidableEq

/-- Embeds `class Time(BaseModel)` (main.py lines 73-76). The `duration`
field holds the timedelta's `total_seconds()` as an exact rational. -/
structure Time where
  description : String
  duration : ℚ
  date : Date
deriving DecidableEq

/-- Embeds `class Fees(BaseModel)` (main.py lines 79-81): `price` is the
hourly rate. -/
structure Fees where
  times : List Time
  price : ℚ
deriving DecidableEq

/-- Pydantic construction of `Time`: the model declares no field constraint
(no `Field(ge=...)`, no validator), so every well-typed value is accepted;
`none` would model a construction-time `ValidationError`, which never
occurs for well-typed input. -/
def mkTime (description : String) (duration : ℚ) (d : Date) : Option Time :=
  some ⟨description, duration, d⟩

/-- Pydantic construction of `Fees`: no field constraint is declared, so any
rate, negative included, is accepted. -/
def mkFees (times : List Time) (price : ℚ) : Option Fees :=
  some ⟨times, price⟩

/-- Per-entry price from the fee-table loop (main.py line 267):
`time.duration.total_seconds() / 3600 * self.fees.price`. -/
def entryPrice (fees : Fees) (t : Time) : ℚ := t.duration / 3600 * fees.price

/-- Per-entry displayed hours (main.py line 268):
`time.duration.total_seconds() // 3600`. -/
def entryHours (t : Time) : ℚ := pyFloorDiv t.duration 3600

/-- Per-entry displayed minutes (main.py line 269):
`(time.duration.total_seconds() % 3600) // 60`. -/
def entryMinutes (t : Time) : ℚ := pyFloorDiv (pyMod t.duration 3600) 60

/-- Subtotal recomputed in `show_total` (main.py lines 313-316). -/
def ht_price (fees : Fees) : ℚ :=
  (fees.times.map (fun t => t.duration / 3600 * fees.price)).sum

/-- Total duration in seconds (main.py lines 317-319). -/
def total_time_seconds (fees : Fees) : ℚ :=
  (fees.times.map (fun t => t.duration)).sum

/-- VAT amount (main.py line 322): `ht_price * 0.20`. -/
def vat (fees : Fees) : ℚ := ht_price fees * (20 / 100)

/-- Grand total (main.py line 323): `ht_price + vat`. -/
def ttc_price (fees : Fees) : ℚ := ht_price fees + vat fees

/-- Total displayed hours in `show_total` (main.py line 320). -/
def totalHours (fees : Fees) : ℚ := pyFloorDiv (total_time_seconds fees) 3600

/-- Total displayed minutes in `show_total` (main.py line 321). -/
def totalMinutes (fees : Fees) : ℚ :=
  pyFloorDiv (pyMod (total_time_seconds fees) 3600) 60

/- Style resolution. -/

/-- The class attributes of `PDFInvoiceWriter` (main.py lines 85-88). -/
def font_base : String := "Yrsa"

/-- The bold font resource name (main.py line 86). -/
def font_bold : String := "YrsaBold"

/-- The italic font resource name (main.py line 87). -/
def font_italic : String := "YrsaItalic"

/-- The bold-italic font resource name (main.py line 88). -/
def font_bold_italic : String := "YrsaBoldItalic"

/-- A Python value passed where a `FontStyle` is expected: annotations are
not enforced at runtime, so the argument is either one of the four enum
members or some other runtime value, carried here by its `repr` string. -/
inductive PyVal
  | fs (s : FontStyle)
  | other (r : String)
deriving DecidableEq

/-- The font name returned by the four enum cases of the `match` in
`font_from_style` (main.py lines 103-110). -/
def fontOf : FontStyle → String
  | .base => font_base
  | .bold => font_bold
  | .italic => font_italic
  | .bold_italic => font_bold_italic

/-- Embeds `font_from_style` (main.py lines 101-112): the four enum members
each map to their pre-registered font; any other runtime value falls to the
wildcard case and raises `ValueError`, modelled by `Except.error` carrying
the message. -/
def font_from_style : PyVal → Except String String
  | .fs s => Except.ok (fontOf s)
  | .other r => Except.error ("Invalid font style: " ++ r)

/-- ReportLab alignment constants `TA_LEFT, TA_CENTER, TA_RIGHT, TA_JUSTIFY`. -/
def taConst : Alignment → Nat
  | .left => 0
  | .center => 1
  | .right => 2
  | .justify => 4

/-- The concrete text style produced by `PDFInvoiceWriter.style`: the
fields set on the fresh `ParagraphStyle` (name, alignment constant, font
name, font size). All fields relevant to the document are overridden from
the `Normal` parent, so the parent is not modelled. -/
structure StyleDescriptor where
  name : String
  alignment : Nat
  fontName : String
  fontSize : ℚ
deriving DecidableEq

/-- Pure value computed by `PDFInvoiceWriter.style` (main.py lines 173-195)
for a given (alignment, emphasis, size) triple. -/
def styleD (a : Alignment) (f : FontStyle) (size : ℚ) : StyleDescriptor :=
  { name := a.value ++ "_" ++ f.value
    alignment := taConst a
    fontName := fontOf f
    fontSize := size }

/-- A table cell: the text and style of the `Paragraph` placed in it. -/
structure Cell where
  text : String
  cstyle : StyleDescriptor
deriving DecidableEq

/-- A content block appended to `self.contents`: a `Paragraph`, a `Spacer`,
or a `Table` (cell grid, column widths, optional row heights — `none` when
the `rowHeights` argument is not passed). Table visual styles
(`TableStyle`) carry no data the claims mention and are not modelled. -/
inductive Block
  | para (text : String) (pstyle : StyleDescriptor)
  | spacerB (width : ℚ) (height : ℚ)
  | tableB (data : List (List Cell)) (colWidths : List ℚ)
      (rowHeights : Option (List ℚ))
deriving DecidableEq

/-- The mutable state of a `PDFInvoiceWriter` instance that a method could
update: its in-progress contents list. The sample stylesheet is read-only
in the source and all fields taken from it are overridden, so it is not
part of the state. -/
structure WriterState where
  contents : List Block
deriving DecidableEq

/-- Embeds `PDFInvoiceWriter.style` as a state-passing function: the method
builds a fresh `ParagraphStyle` (parent `Normal`), overrides alignment,
font name and size, and returns it; it assigns to no attribute of `self`,
so the state is returned unchanged. -/
def style (σ : WriterState) (a : Alignment) (f : FontStyle) (size : ℚ) :
    StyleDescriptor × WriterState :=
  (styleD a f size, σ)

/- String formatting helpers, modelling Python format specifiers on the
rational model of floats. -/

/-- Rounding to the nearest integer with ties to even, as Python float
formatting does. -/
def roundHalfEven (q : ℚ) : ℤ :=
  let f := ⌊q⌋
  let r := q - (f : ℚ)
  if r < 1 / 2 then f
  else if 1 / 2 < r then f + 1
  else if Even f then f else f + 1

/-- Left-pads a string with the zero digit up to width 2. -/
def zfill2 (s : String) : String :=
  if s.length < 2 then "0" ++ s else s

/-- Python's format spec `02.0f`: round to zero decimals, zero-pad to
width 2. -/
def format02f (q : ℚ) : String := zfill2 (toString (roundHalfEven q))

/-- Python's format spec `.2f`: round to two decimals and print them. -/
def format2f (q : ℚ) : String :=
  let n := roundHalfEven (q * 100)
  let sign := if n < 0 then "-" else ""
  let m := n.natAbs
  sign ++ toString (m / 100) ++ "." ++ zfill2 (toString (m % 100))

/-- Python's `str()` of a float, modelled only for whole values (the only
rates the repository uses); no claim depends on this rendering. -/
def pyFloatStr (q : ℚ) : String :=
  if q.den = 1 then toString q.num ++ ".0"
  else toString q.num ++ "/" ++ toString q.den

/-- `date.strftime("%d/%m/%Y")` (main.py line 275). -/
def strftimeDMY (d : Date) : String :=
  zfill2 (toString d.day) ++ "/" ++ zfill2 (toString d.month) ++ "/" ++
    (if (toString d.year).length < 4 then
      String.mk (List.replicate (4 - (toString d.year).length) '0') ++
        toString d.year
     else toString d.year)

/- Page geometry constants. -/

/-- `letter[0]`, the page width in points. -/
def letterWidth : ℚ := 612

/-- `inch`, in points. -/
def inch : ℚ := 72

/-- `letter[0] - 2 * inch` (main.py lines 241, 288, 357). -/
def available_width : ℚ := letterWidth - 2 * inch

/- Content-building methods. Each is embedded as the list of blocks the
method appends to `self.contents`, in append order; `build` concatenates
them in call order. -/

/-- Embeds `spacer` (main.py lines 169-171): `Spacer(1, base_height * height)`
with the default `base_height = 12`. -/
def spacerBlk (height : ℚ) : Block := Block.spacerB 1 (12 * height)

/-- Embeds `lawyer_title` (main.py lines 197-206). -/
def lawyer_title (name : String) : List Block :=
  [Block.para name (styleD .center .bold 16),
   spacerBlk 0.3,
   Block.para "Avocate à la Cour" (styleD .center .base 16)]

/-- Embeds `collaborator_title` (main.py lines 208-224): heading, one line
per name, closing caption pluralized when more than one name. -/
def collaborator_title (names : List String) : List Block :=
  [Block.para "En collaboration avec :" (styleD .left .italic 12)]
    ++ names.map (fun n => Block.para n (styleD .left .base 12))
    ++ [Block.para
          ("Avocate" ++ (if 1 < names.length then "s" else "") ++
            " à la Cour")
          (styleD .left .base 12)]

/-- The honorific chosen in `client_address` (main.py line 229):
`"Monsieur" if client.gender == "M" else "Madame"`. -/
def honorific (g : Gender) : String :=
  if g = Gender.M then "Monsieur" else "Madame"

/-- Embeds `client_address` (main.py lines 226-233). -/
def client_address (c : Client) : List Block :=
  [Block.para (honorific c.gender ++ " " ++ c.name) (styleD .right .bold 12),
   Block.para c.adress (styleD .right .bold 12),
   Block.para (c.zip_code ++ " " ++ c.city) (styleD .right .bold 12)]

/-- The one-cell bordered table built by `invoice_number_rectangle`: the
label and number centered in a box of the full content width and half-inch
height. -/
def invoiceBox (number : String) : Block :=
  Block.tableB [[⟨"FACTURE N°" ++ number, styleD .center .bold 12⟩]]
    [available_width] (some [1 / 2 * inch])

/-- Embeds `invoice_number_rectangle` (main.py lines 235-252). -/
def invoice_number_rectangle (number : String) : List Block :=
  [invoiceBox number]

/-- Embeds `place_and_date` (main.py lines 254-261). -/
def place_and_date (place : String) (d : Date) : List Block :=
  [Block.para
    (place ++ ", le " ++ toString d.day ++ " " ++ monthFrench d.month ++
      " " ++ toString d.year)
    (styleD .right .base 12)]

/-- One row of the itemized fee table (main.py lines 271-286). -/
def feeTableRow (fees : Fees) (t : Time) : List Cell :=
  [⟨"", styleD .left .base 12⟩,
   ⟨t.description ++ " (" ++ strftimeDMY t.date ++ ")", styleD .left .bold 12⟩,
   ⟨format02f (entryHours t) ++ ":" ++ format02f (entryMinutes t),
     styleD .right .bold 12⟩,
   ⟨format2f (entryPrice fees t) ++ " €", styleD .right .bold 12⟩]

/-- Embeds `list_fee_table` (main.py lines 263-309). -/
def list_fee_table (fees : Fees) : List Block :=
  [Block.tableB
    (fees.times.map (feeTableRow fees))
    [available_width * (15 / 100), available_width * (55 / 100),
     available_width * (15 / 100), available_width * (15 / 100)]
    (some (List.replicate fees.times.length 12))]

/-- Embeds `show_total` (main.py lines 311-374): the four-row totals table,
built from `ht_price`, `vat`, `ttc_price` and the total duration split. -/
def show_total (fees : Fees) : List Block :=
  [Block.tableB
    [[⟨"", styleD .left .base 12⟩,
      ⟨"<u>Soit un total de " ++ format02f (totalHours fees) ++ "h" ++
        format02f (totalMinutes fees) ++ "</u>", styleD .left .bold 12⟩,
      ⟨"", styleD .right .bold 12⟩],
     [⟨"", styleD .left .base 12⟩,
      ⟨"Honoraires H.T.", styleD .left .bold 12⟩,
      ⟨format2f (ht_price fees) ++ " €", styleD .right .bold 12⟩],
     [⟨"", styleD .left .base 12⟩,
      ⟨"TVA 20%", styleD .left .bold 12⟩,
      ⟨format2f (vat fees) ++ " €", styleD .right .bold 12⟩],
     [⟨"", styleD .left .base 12⟩,
      ⟨"TOTAL T.T.C. DU", styleD .left .bold 12⟩,
      ⟨format2f (ttc_price fees) ++ " €", styleD .right .bold 12⟩]]
    [available_width * (10 / 100),
     available_width * (90 / 100) * (70 / 100),
     available_width * (90 / 100) * (30 / 100)]
    none]

/-- Embeds `detail_fees` (main.py lines 376-391). -/
def detail_fees (fees : Fees) : List Block :=
  [Block.para "<u>Honoraires</u>" (styleD .left .bold 12),
   spacerBlk 1,
   Block.para
     ("Facturation horaire : " ++ pyFloatStr fees.price ++
       " euros HT de l'heure (selon l'article 2.1 du contrat de mission)")
     (styleD .left .bold 12),
   spacerBlk 1,
   Block.para "Diligences effectuées :" (styleD .left .bold 12),
   spacerBlk 1]
    ++ list_fee_table fees
    ++ [spacerBlk 5]
    ++ show_total fees

/-- Embeds `final` (main.py lines 393-409). -/
def finalBlocks : List Block :=
  [Block.para "TVA Applicable -" (styleD .left .italic 12),
   Block.para "En votre aimable règlement" (styleD .left .bold 12),
   spacerBlk 1,
   Block.para
     ("<u>Conformément à nos usages de professions libérales, la présente" ++
       " est payable dès réception</u>")
     (styleD .left .base 12)]

/-- Embeds the content-assembly part of `build` (main.py lines 147-161):
the ordered block sequence. `now` is the value of `datetime.now()` at the
call; the place `"Paris"` and the invoice number `"2025-121"` are literals
in the source. -/
def build (client : Client) (lawfirm : LawFirm) (fees : Fees) (now : Date) :
    List Block :=
  lawyer_title lawfirm.principal_lawyer
    ++ [spacerBlk 1.5]
    ++ (if lawfirm.collaborators.isEmpty then []
        else collaborator_title lawfirm.collaborators ++ [spacerBlk 1])
    ++ client_address client
    ++ [spacerBlk 3]
    ++ place_and_date "Paris" now
    ++ [spacerBlk 0.5]
    ++ invoice_number_rectangle "2025-121"
    ++ [spacerBlk 2]
    ++ detail_fees fees
    ++ [spacerBlk 2]
    ++ finalBlocks

/- Footer rendering and document assembly. -/

/-- The page-geometry fields of the document template that `_draw_footer`
reads: `doc.width`, `doc.leftMargin`, `doc.bottomMargin`. -/
structure PageGeometry where
  width : ℚ
  leftMargin : ℚ
  bottomMargin : ℚ

/-- The external typesetting engine's `Paragraph.wrap(availWidth,
availHeight)` result for a text: a (width, height) pair. Abstracted as a
parameter, since text measurement belongs to the rendering engine. -/
def WrapFn : Type := String → ℚ → ℚ → ℚ × ℚ

/-- One footer line as drawn by `canvas.drawOn`: its text and the (x, y)
coordinates it is drawn at. -/
structure FooterLine where
  text : String
  x : ℚ
  y : ℚ

/-- The first footer line's text (main.py lines 122-124). -/
def footerLine1 (lf : LawFirm) : String :=
  lf.adress ++ " " ++ lf.zip_code ++ " " ++ lf.city

/-- The second footer line's text (main.py line 130). -/
def footerLine2 (lf : LawFirm) : String :=
  "Tel : " ++ lf.phone ++ " - Mail : " ++ lf.mail ++ " - Site : " ++ lf.website

/-- The third footer line's text (main.py line 138). -/
def footerLine3 (lf : LawFirm) : String :=
  "TVA Intracommunautaire : " ++ lf.vat_number ++ " - SIRET : " ++
    lf.siret_number

/-- Embeds `_draw_footer` (main.py lines 114-145): the three lines drawn on
the canvas, with the vertical placement arithmetic of the source —
`y_position = doc.bottomMargin / 2`, line 1 at `y_position + h1 * 1.5`,
line 2 at `y_position + h1 * 0.5`, line 3 at `y_position - h2 * 0.5`. -/
def draw_footer (lf : LawFirm) (geom : PageGeometry) (wrap : WrapFn) :
    List FooterLine :=
  let y_position := geom.bottomMargin / 2
  let h1 := (wrap (footerLine1 lf) geom.width geom.bottomMargin).2
  let h2 := (wrap (footerLine2 lf) geom.width geom.bottomMargin).2
  [⟨footerLine1 lf, geom.leftMargin, y_position + h1 * 1.5⟩,
   ⟨footerLine2 lf, geom.leftMargin, y_position + h1 * 0.5⟩,
   ⟨footerLine3 lf, geom.leftMargin, y_position - h2 * 0.5⟩]

/-- The arguments `build` passes to `self.doc.build` (main.py lines
163-166): the finished contents and the per-page footer callbacks. -/
structure BuiltDoc where
  contents : List Block
  onFirstPage : PageGeometry → WrapFn → List FooterLine
  onLaterPages : PageGeometry → WrapFn → List FooterLine

/-- Embeds the document-assembly step of `build` (main.py lines 163-166):
the bound method `self._draw_footer` — here `draw_footer lawfirm` — is
registered both for the first page and for every later page. -/
def buildDoc (client : Client) (lawfirm : LawFirm) (fees : Fees)
    (now : Date) : BuiltDoc :=
  { contents := build client lawfirm fees now
    onFirstPage := draw_footer lawfirm
    onLaterPages := draw_footer lawfirm }

/- Concrete values, from the sample data of the `__main__` block (main.py
lines 412-458), used to evaluate the theorems on executable inputs. -/

/-- The sample client (main.py lines 413-419). -/
def clientEx : Client :=
  ⟨"John DOE", Gender.M, "Paris", "75000", "123 Rue de la Paix"⟩

/-- The sample law firm (main.py lines 420-432), with two collaborators. -/
def lawfirmEx : LawFirm :=
  ⟨"Jean-Pierre Machin", ["Gerard LOULOU", "Francesca MARTINI"],
   "75000", "Paris", "123 Rue de la Paix", "01.23.45.67.89",
   "Somewhere AX8786", "cabinet.avocate@gmail.com", "cabinet-avocat.fr",
   "FR1234567890", "1234567890"⟩

/-- The sample law firm with an emptied collaborator list. -/
def lawfirmSolo : LawFirm :=
  ⟨"Jean-Pierre Machin", [], "75000", "Paris", "123 Rue de la Paix",
   "01.23.45.67.89", "Somewhere AX8786", "cabinet.avocate@gmail.com",
   "cabinet-avocat.fr", "FR1234567890", "1234567890"⟩

/-- The sample fee schedule (main.py lines 434-458): durations 11 min,
6 min, 1 h and 3 h 12 min, in seconds, at hourly rate 300. -/
def feesEx : Fees :=
  ⟨[⟨"Courriel Mme : Projet LO", 660, ⟨24, 3, 2025⟩⟩,
    ⟨"Courriel Mme", 360, ⟨25, 3, 2025⟩⟩,
    ⟨"Renvoi audience", 3600, ⟨2, 4, 2025⟩⟩,
    ⟨"An element done in 3 hours and 12 minutes", 11520, ⟨3, 5, 2025⟩⟩],
   300⟩

/-- A sample time entry of the given duration in seconds. -/
def tEx (s : ℚ) : Time := ⟨"x", s, ⟨24, 3, 2025⟩⟩

/-- A fixed build-time date. -/
def nowEx : Date := ⟨12, 10, 2026⟩

/-- The heading paragraph of the collaborators block, the block's first
appended element (main.py lines 210-214). -/
def collabHeading : Block :=
  Block.para "En collaboration avec :" (styleD .left .italic 12)

/-- The closing caption of the collaborators block in its singular form. -/
def singularCaption : Block :=
  Block.para "Avocate à la Cour" (styleD .left .base 12)

/- Theorems. -/

/-- Bounds of the Python float floor-division: for a positive divisor,
`(a // b) * b ≤ a < (a // b + 1) * b`. -/
theorem pyFloorDiv_bounds (a b : ℚ) (hb : 0 < b) :
    pyFloorDiv a b * b ≤ a ∧ a < (pyFloorDiv a b + 1) * b := by
  unfold pyFloorDiv
  constructor
  · exact (le_div_iff₀ hb).mp (Int.floor_le (a / b))
  · have h := Int.lt_floor_add_one (a / b)
    have := (div_lt_iff₀ hb).mp h
    push_cast at this ⊢
    linarith

/-- C1: for every time entry with non-negative duration, the fee table's
hours and minutes are the floors `duration_seconds // 3600` and
`(duration_seconds % 3600) // 60`, so the decomposition truncates seconds:
`hours*3600 + minutes*60 ≤ duration_seconds <
hours*3600 + (minutes+1)*60`. -/
theorem fee_table_duration_truncation (t : Time) (_h : 0 ≤ t.duration) :
    entryHours t = ((⌊t.duration / 3600⌋ : ℤ) : ℚ) ∧
    entryMinutes t =
      ((⌊(t.duration - 3600 * entryHours t) / 60⌋ : ℤ) : ℚ) ∧
    entryHours t * 3600 + entryMinutes t * 60 ≤ t.duration ∧
    t.duration < entryHours t * 3600 + (entryMinutes t + 1) * 60 := by
  refine ⟨rfl, rfl, ?_, ?_⟩
  · have h1 := (pyFloorDiv_bounds t.duration 3600 (by norm_num)).1
    have h2 := (pyFloorDiv_bounds (pyMod t.duration 3600) 60 (by norm_num)).1
    have hr : pyMod t.duration 3600 =
        t.duration - 3600 * pyFloorDiv t.duration 3600 := rfl
    unfold entryHours entryMinutes
    linarith
  · have h2 := (pyFloorDiv_bounds (pyMod t.duration 3600) 60 (by norm_num)).2
    have hr : pyMod t.duration 3600 =
        t.duration - 3600 * pyFloorDiv t.duration 3600 := rfl
    unfold entryHours entryMinutes
    linarith

/-- Witness for `fee_table_duration_truncation` at the sample 3 h 12 min
entry (11520 seconds): hours 3, minutes 12, and the truncation bounds. -/
theorem fee_table_duration_truncation_witness :
    (0 : ℚ) ≤ (tEx 11520).duration ∧
    entryHours (tEx 11520) = 3 ∧
    entryMinutes (tEx 11520) = 12 ∧
    entryHours (tEx 11520) * 3600 + entryMinutes (tEx 11520) * 60 ≤
      (tEx 11520).duration ∧
    (tEx 11520).duration <
      entryHours (tEx 11520) * 3600 + (entryMinutes (tEx 11520) + 1) * 60 := by
  have hpos : (0 : ℚ) ≤ (tEx 11520).duration := by norm_num [tEx]
  have h := fee_table_duration_truncation (tEx 11520) hpos
  refine ⟨hpos, ?_, ?_, h.2.2.1, h.2.2.2⟩
  · norm_num [entryHours, pyFloorDiv, tEx]
  · norm_num [entryMinutes, pyFloorDiv, pyMod, tEx]

/-- C2: the totals block computes the subtotal as the sum of the unrounded
per-entry prices `(duration_seconds / 3600) * rate`, the VAT as 20% of
that subtotal, and the grand total as their sum; evaluated on the sample
schedule this yields 1345, 269 and 1614 before any display rounding. -/
theorem totals_from_unrounded_prices (fees : Fees) :
    ht_price fees = (fees.times.map (fun t => entryPrice fees t)).sum ∧
    vat fees = ht_price fees * (20 / 100) ∧
    ttc_price fees = ht_price fees + vat fees ∧
    ht_price feesEx = 1345 ∧ vat feesEx = 269 ∧ ttc_price feesEx = 1614 := by
  refine ⟨rfl, rfl, rfl, ?_, ?_, ?_⟩ <;>
    norm_num [ht_price, vat, ttc_price, feesEx]

/-- C3 counterexample: constructing a `Time` with a negative duration and a
`Fees` with a negative hourly rate both succeed — pydantic declares no
value constraint on either field, so nothing is rejected at construction
time. -/
theorem negative_values_accepted_at_construction :
    (mkTime "x" (-60) ⟨1, 1, 2025⟩).isSome = true ∧
    (mkFees [] (-1)).isSome = true :=
  ⟨rfl, rfl⟩

/-- C3 amended: data-model construction performs no value validation —
`Time` accepts any duration (negative included) and `Fees` any rate, and
construction never fails on well-typed input; the fee computation itself
raises no errors. -/
theorem construction_accepts_all_values (desc : String) (dur : ℚ) (d : Date)
    (ts : List Time) (p : ℚ) :
    mkTime desc dur d = some ⟨desc, dur, d⟩ ∧ mkFees ts p = some ⟨ts, p⟩ :=
  ⟨rfl, rfl⟩

/-- C5: the client address block begins with "Monsieur" for gender tag M
and "Madame" for F, and the data model accepts no gender string outside
those two literals. -/
theorem honorific_mapping (c : Client) (s : String) :
    (c.gender = Gender.M →
      (client_address c).head? =
        some (Block.para ("Monsieur " ++ c.name) (styleD .right .bold 12))) ∧
    (c.gender = Gender.F →
      (client_address c).head? =
        some (Block.para ("Madame " ++ c.name) (styleD .right .bold 12))) ∧
    parseGender "M" = some Gender.M ∧
    parseGender "F" = some Gender.F ∧
    (s ≠ "M" → s ≠ "F" → parseGender s = none) := by
  refine ⟨?_, ?_, rfl, rfl, ?_⟩
  · intro hg
    simp [client_address, honorific, hg]
  · intro hg
    simp [client_address, honorific, hg]
  · intro h1 h2
    simp [parseGender, h1, h2]

/-- Witness for `honorific_mapping`: the sample client (gender M) gets
"Monsieur", and the string "X" is rejected by the gender validator. -/
theorem honorific_mapping_witness :
    (client_address clientEx).head? =
      some (Block.para ("Monsieur " ++ clientEx.name)
        (styleD .right .bold 12)) ∧
    parseGender "X" = none :=
  ⟨(honorific_mapping clientEx "X").1 rfl,
   (honorific_mapping clientEx "X").2.2.2.2 (by decide) (by decide)⟩

/-- C7: each of the four recognized emphasis values maps to its
pre-registered font resource, and any other runtime value makes
`font_from_style` fail with a raised error instead of defaulting. -/
theorem font_selection_exhaustive (s : FontStyle) (r : String) :
    font_from_style (PyVal.fs FontStyle.base) = Except.ok "Yrsa" ∧
    font_from_style (PyVal.fs FontStyle.bold) = Except.ok "YrsaBold" ∧
    font_from_style (PyVal.fs FontStyle.italic) = Except.ok "YrsaItalic" ∧
    font_from_style (PyVal.fs FontStyle.bold_italic) =
      Except.ok "YrsaBoldItalic" ∧
    font_from_style (PyVal.fs s) = Except.ok (fontOf s) ∧
    font_from_style (PyVal.other r) =
      Except.error ("Invalid font style: " ++ r) :=
  ⟨rfl, rfl, rfl, rfl, rfl, rfl⟩

/-- C8: the footer renderer emits exactly three lines anchored at
`y0 = bottomMargin / 2`, with line 1 at `y0 + h1 * 1.5`, line 2 at
`y0 + h1 * 0.5` and line 3 at `y0 - h2 * 0.5` (each height the line's own
wrapped height), and `build` registers the same footer callback for the
first page and all later pages. -/
theorem footer_placement_and_registration (lf : LawFirm)
    (geom : PageGeometry) (wrap : WrapFn) (c : Client) (fees : Fees)
    (now : Date) :
    (draw_footer lf geom wrap).length = 3 ∧
    draw_footer lf geom wrap =
      [⟨footerLine1 lf, geom.leftMargin, geom.bottomMargin / 2 +
          (wrap (footerLine1 lf) geom.width geom.bottomMargin).2 * 1.5⟩,
       ⟨footerLine2 lf, geom.leftMargin, geom.bottomMargin / 2 +
          (wrap (footerLine1 lf) geom.width geom.bottomMargin).2 * 0.5⟩,
       ⟨footerLine3 lf, geom.leftMargin, geom.bottomMargin / 2 -
          (wrap (footerLine2 lf) geom.width geom.bottomMargin).2 * 0.5⟩] ∧
    (buildDoc c lf fees now).onFirstPage = draw_footer lf ∧
    (buildDoc c lf fees now).onLaterPages = draw_footer lf :=
  ⟨rfl, rfl, rfl, rfl⟩

/-- C9: style resolution is deterministic and side-effect free — a call
leaves the writer state unchanged, and two successive calls with the same
(alignment, emphasis, size) triple return descriptors with equal fontName,
fontSize and alignment fields (indeed equal descriptors). -/
theorem style_resolution_pure (σ : WriterState) (a : Alignment)
    (f : FontStyle) (size : ℚ) :
    (style σ a f size).2 = σ ∧
    ((style σ a f size).1).fontName =
      ((style (style σ a f size).2 a f size).1).fontName ∧
    ((style σ a f size).1).fontSize =
      ((style (style σ a f size).2 a f size).1).fontSize ∧
    ((style σ a f size).1).alignment =
      ((style (style σ a f size).2 a f size).1).alignment ∧
    (style σ a f size).1 = (style (style σ a f size).2 a f size).1 :=
  ⟨rfl, rfl, rfl, rfl, rfl⟩

/-- C10: the subtotal recomputed in the totals block equals the sum, in
entry order, of the per-entry prices shown in the fee table rows — both
sides evaluate `(duration_seconds / 3600) * rate` per entry, and each
row's displayed amount cell is the formatted value of that same price. -/
theorem totals_match_fee_table_rows (fees : Fees) :
    (fees.times.map (fun t => entryPrice fees t)).sum = ht_price fees ∧
    fees.times.map (fun t => (feeTableRow fees t).getLast?) =
      fees.times.map (fun t =>
        some (⟨format2f (entryPrice fees t) ++ " €",
          styleD .right .bold 12⟩ : Cell)) :=
  ⟨rfl, rfl⟩

/-- C4: the collaborators block (identified by its heading paragraph) is in
the built sequence exactly when the collaborator list is non-empty, and
when present its closing caption (the block's last element) reads the
singular "Avocate à la Cour" exactly when the list has one name. -/
theorem collaborators_block_presence (c : Client) (lf : LawFirm)
    (fees : Fees) (now : Date) :
    (collabHeading ∈ build c lf fees now ↔ lf.collaborators ≠ []) ∧
    (lf.collaborators ≠ [] →
      ((collaborator_title lf.collaborators).getLast? =
          some singularCaption ↔ lf.collaborators.length = 1)) := by
  constructor
  · constructor
    · intro hmem heq
      simp [build, heq, lawyer_title, client_address, place_and_date,
        invoice_number_rectangle, invoiceBox, detail_fees, finalBlocks,
        list_fee_table, show_total, spacerBlk, styleD, collabHeading,
        FontStyle.value, Alignment.value, taConst, fontOf, font_base,
        font_bold, font_italic, font_bold_italic] at hmem
    · intro hne
      obtain ⟨a, l, heq⟩ := List.exists_cons_of_ne_nil hne
      simp [build, heq, collaborator_title, collabHeading]
  · intro hne
    have hlast : (collaborator_title lf.collaborators).getLast? =
        some (Block.para
          ("Avocate" ++ (if 1 < lf.collaborators.length then "s" else "") ++
            " à la Cour")
          (styleD .left .base 12)) := by
      unfold collaborator_title
      rw [List.getLast?_append_cons]
      rfl
    rw [hlast]
    by_cases h1 : lf.collaborators.length = 1
    · simp only [h1, if_neg (by omega : ¬(1 : Nat) < 1)]
      simp [singularCaption]
    · have hgt : 1 < lf.collaborators.length := by
        have := List.length_pos.mpr hne
        omega
      simp only [if_pos hgt]
      simp [singularCaption, h1]

/-- Witness for `collaborators_block_presence`: with the sample firm (two
collaborators) the heading block is present, and the closing caption is
not the singular form since the list has two names. -/
theorem collaborators_block_presence_witness :
    collabHeading ∈ build clientEx lawfirmEx feesEx nowEx ∧
    ((collaborator_title lawfirmEx.collaborators).getLast? =
        some singularCaption ↔ lawfirmEx.collaborators.length = 1) :=
  ⟨(collaborators_block_presence clientEx lawfirmEx feesEx nowEx).1.mpr
      (by decide),
   (collaborators_block_presence clientEx lawfirmEx feesEx nowEx).2
      (by decide)⟩

/-- C6 counterexample: the invoice number is not consumed from the caller —
at the sample inputs the built sequence contains the hard-coded box
"FACTURE N°2025-121", and the box for a caller-chosen number such as
"2026-001" is never present. -/
theorem invoice_number_not_caller_supplied :
    invoiceBox "2025-121" ∈ build clientEx lawfirmEx feesEx nowEx ∧
    invoiceBox "2026-001" ∉ build clientEx lawfirmEx feesEx nowEx := by
  constructor
  · simp [build, invoice_number_rectangle]
  · simp [build, invoice_number_rectangle, invoiceBox, lawyer_title,
      client_address, place_and_date, detail_fees, finalBlocks,
      list_fee_table, show_total, feeTableRow, spacerBlk, collaborator_title,
      lawfirmEx, clientEx, feesEx, nowEx]

/-- C6 amended: `build` accepts no presentation parameters — for every
input the invoice-number box carries the hard-coded string "2025-121", and
the place-and-date line renders the hard-coded place "Paris" with the
build-time date as `<day> <french-month-name> <year>`. -/
theorem build_hardcodes_presentation (c : Client) (lf : LawFirm)
    (fees : Fees) (now : Date) :
    invoiceBox "2025-121" ∈ build c lf fees now ∧
    Block.para
        ("Paris" ++ ", le " ++ toString now.day ++ " " ++
          monthFrench now.month ++ " " ++ toString now.year)
        (styleD .right .base 12) ∈ build c lf fees now := by
  constructor
  · simp [build, invoice_number_rectangle]
  · simp [build, place_and_date]

end BillPDF
